import Mathlib

/-!
Shallow embedding of the `texcompile.client` package: the remote entry
points `compile_pdf`, `compile_pdf_return_bytes`, `compile_html_return_text`
and `send_request` from `texcompile/client/__init__.py`, and the local
runner `compile_pdf_locally` from `texcompile/client/local.py`.

The entry points are modelled as pure functions of the decoded JSON
response; filesystem and network effects are recorded as explicit event
traces.  Base64 decoding and UTF-8 decoding are delegated to the Python
standard library in the source, so they appear here as abstract function
parameters `b64` and `utf8`; all theorems hold for every choice of these.
-/

set_option autoImplicit false

namespace Texcompile

/-- One entry of the JSON response's `output` list: a type tag, a
server-supplied path and base64-encoded contents (`output["type"]`,
`output["path"]`, `output["contents"]` in the source). -/
structure OutputEntry where
  type_ : String
  path : String
  contents : String
deriving DecidableEq

/-- The decoded JSON body returned by the compilation server, with the
fields the client reads: `success`, `has_output`, `main_tex_files`,
`log`, `output`. -/
structure ResponseData where
  success : Bool
  has_output : Bool
  main_tex_files : List String
  log : String
  output : List OutputEntry
deriving DecidableEq

/-- `OutputFile` dataclass: a type tag and a base name. -/
structure OutputFile where
  type_ : String
  name : String
deriving DecidableEq

/-- `Result` dataclass built by `compile_pdf`. -/
structure Result where
  success : Bool
  main_tex_files : List String
  log : String
  output_files : List OutputFile
deriving DecidableEq

/-- Filesystem effects performed by `compile_pdf` while persisting
outputs: `os.makedirs`, the `logger.warning` on an existing file, and a
file write. -/
inductive Event where
  | mkdir : Event
  | warn : String → Event
  | write : String → List Nat → Event
deriving DecidableEq

/-- Recognises a file-write event. -/
def isWrite : Event → Bool
  | Event.write _ _ => true
  | _ => false

/-- Recognises an overwrite-warning event. -/
def isWarn : Event → Bool
  | Event.warn _ => true
  | _ => false

/-- The characters of a path after the last forward slash.  This is
`posixpath.basename`, which returns `p[p.rfind(sep) + 1 :]` with
`sep = the forward slash`, independent of the host OS. -/
def lastSegment (l : List Char) : List Char :=
  ((l.reverse.takeWhile fun c => c != '/').reverse)

/-- `posixpath.basename` lifted to strings, as used on `output["path"]`. -/
def posixBasename (p : String) : String :=
  String.mk (lastSegment p.data)

/-- The saving loop of `compile_pdf`: for each output entry, derive the
POSIX basename, warn when a file of that name already exists at the save
path, then write the base64-decoded contents there.  `existing` is the
set of file names already present in the output directory; a name written
earlier in the same loop is also present (`os.path.exists`). -/
def persistLoop (b64 : String → List Nat) (existing : List String) :
    List OutputEntry → List Event × List OutputFile
  | [] => ([], [])
  | e :: rest =>
    let basename := posixBasename e.path
    let res := persistLoop b64 (basename :: existing) rest
    ((if basename ∈ existing then [Event.warn basename] else []) ++
       (Event.write basename (b64 e.contents) :: res.1),
     OutputFile.mk e.type_ basename :: res.2)

/-- `compile_pdf` after the response has been decoded: raise
`CompilationException(data["log"])` unless `data["success"] or
data["has_output"]`; otherwise create the output directory when absent,
persist every output entry and return the `Result`.  Errors are modelled
as the exception's message string. -/
def compile_pdf (b64 : String → List Nat) (data : ResponseData)
    (dirExists : Bool) (existing : List String) :
    Except String Result × List Event :=
  if !(data.success || data.has_output) then
    (Except.error data.log, [])
  else
    let saved := persistLoop b64 existing data.output
    (Except.ok (Result.mk data.success data.main_tex_files data.log saved.2),
     (if dirExists then [] else [Event.mkdir]) ++ saved.1)

/-- The scanning loop of `compile_pdf_return_bytes`: return the first
entry whose type tag is the pdf tag, as `(basename, decoded bytes)`;
raise `CompilationException` with message `No pdf output.` when the list
is exhausted. -/
def pdfLoop (b64 : String → List Nat) :
    List OutputEntry → Except String (String × List Nat)
  | [] => Except.error "No pdf output."
  | e :: rest =>
    if e.type_ == "pdf" then
      Except.ok (posixBasename e.path, b64 e.contents)
    else pdfLoop b64 rest

/-- `compile_pdf_return_bytes` after the response has been decoded. -/
def compile_pdf_return_bytes (b64 : String → List Nat)
    (data : ResponseData) : Except String (String × List Nat) :=
  if !(data.success || data.has_output) then Except.error data.log
  else pdfLoop b64 data.output

/-- The scanning loop of `compile_html_return_text`: return the UTF-8
decoding of the base64-decoded contents of the first entry whose type tag
is the html tag; raise `CompilationException` with message
`No pdf output.` when the list is exhausted (the message in the source
really says pdf). -/
def htmlLoop (b64 : String → List Nat) (utf8 : List Nat → String) :
    List OutputEntry → Except String String
  | [] => Except.error "No pdf output."
  | e :: rest =>
    if e.type_ == "html" then Except.ok (utf8 (b64 e.contents))
    else htmlLoop b64 utf8 rest

/-- `compile_html_return_text` after the response has been decoded. -/
def compile_html_return_text (b64 : String → List Nat)
    (utf8 : List Nat → String) (data : ResponseData) :
    Except String String :=
  if !(data.success || data.has_output) then Except.error data.log
  else htmlLoop b64 utf8 data.output

/-- Events of `send_request`: creation of the temporary directory,
writing of the gzipped source archive into it, one HTTP POST (carrying
the form fields `autotex_or_latexml` and `main_tex_file`), and removal of
the temporary directory when the context manager exits. -/
inductive SEvent where
  | tmpCreated : SEvent
  | archiveWritten : SEvent
  | post : String → String → SEvent
  | tmpRemoved : SEvent
deriving DecidableEq

/-- Recognises a POST event. -/
def isPost : SEvent → Bool
  | SEvent.post _ _ => true
  | _ => false

/-- Exceptions `send_request` can raise: the `assert main_tex` failure,
`ServerConnectionException` wrapping a `requests` exception, and the
fuel-exhaustion marker standing for a still-running retry loop. -/
inductive SErr where
  | assertionError : SErr
  | serverConnection : SErr
  | stillLooping : SErr
deriving DecidableEq

/-- Outcome of the post/retry loop: a response with a status other than
104 at attempt `n`, a transport exception at attempt `n`, or still
looping when the observation fuel runs out. -/
inductive LoopOut where
  | answered : Nat → Nat → LoopOut
  | connFailed : Nat → LoopOut
  | running : LoopOut
deriving DecidableEq

/-- The post/retry loop of `send_request`: post, and repost as long as
the status code is 104.  `server k` is the server's behaviour on the
k-th POST of this call: `some st` a response with status `st`, `none` a
`requests.exceptions.RequestException`.  `fuel` bounds how long we watch
the loop; the source loop itself is unbounded. -/
def retryLoop (server : Nat → Option Nat) : Nat → Nat → LoopOut
  | _, 0 => LoopOut.running
  | k, fuel + 1 =>
    match server k with
    | none => LoopOut.connFailed k
    | some st =>
      if st == 104 then retryLoop server (k + 1) fuel
      else LoopOut.answered k st

/-- `send_request`: create a temporary directory, write the source
archive into it, check the latexml assertion, run the post/retry loop,
remove the temporary directory, and return the accepted response
(modelled as the pair of the accepting attempt index and its status).
The archive is written before the assertion is checked, as in the
source, and every POST carries the same mode and main-tex fields. -/
def sendRequest (mode mainTex : String) (server : Nat → Option Nat)
    (fuel : Nat) : Except SErr (Nat × Nat) × List SEvent :=
  if mode == "latexml" && mainTex == "" then
    (Except.error SErr.assertionError,
     [SEvent.tmpCreated, SEvent.archiveWritten, SEvent.tmpRemoved])
  else
    match retryLoop server 0 fuel with
    | LoopOut.answered n st =>
      (Except.ok (n, st),
       SEvent.tmpCreated :: SEvent.archiveWritten ::
         (List.replicate (n + 1) (SEvent.post mode mainTex) ++
           [SEvent.tmpRemoved]))
    | LoopOut.connFailed n =>
      (Except.error SErr.serverConnection,
       SEvent.tmpCreated :: SEvent.archiveWritten ::
         (List.replicate (n + 1) (SEvent.post mode mainTex) ++
           [SEvent.tmpRemoved]))
    | LoopOut.running =>
      (Except.error SErr.stillLooping,
       SEvent.tmpCreated :: SEvent.archiveWritten ::
         List.replicate fuel (SEvent.post mode mainTex))

/-- Events of `compile_pdf_locally`: creation and removal of the scratch
directory (the `tempfile.TemporaryDirectory` context manager) and the
subprocess invocation. -/
inductive LEvent where
  | scratchCreated : LEvent
  | ranSubprocess : LEvent
  | scratchRemoved : LEvent
deriving DecidableEq

/-- Exceptions of the local runner: `FileNotFoundError` for a missing
source directory and `LocalCompilationException` with its message. -/
inductive LocalErr where
  | fileNotFound : String → LocalErr
  | localCompilation : String → LocalErr
deriving DecidableEq

/-- What `subprocess.run` observed: exit code and captured text
streams. -/
structure RunOutcome where
  exitCode : Nat
  stdout : String
  stderr : String
deriving DecidableEq

/-- The literal characters before the captured group in the pattern
used on the driver's stdout. -/
def markerPre : List Char := "Generated PDF: ".data

/-- The literal characters closing the captured group. -/
def markerEnd : List Char := "<end of PDF name>".data

/-- The lazy group of the pattern: the shortest run of non-newline
characters after which the closing literal starts (the dot of the
pattern does not match a newline, and the star is non-greedy). -/
def lazyGroup : List Char → Option (List Char)
  | [] => none
  | c :: rest =>
    if markerEnd.isPrefixOf (c :: rest) then some []
    else if c = '\n' then none
    else (lazyGroup rest).map fun g => c :: g

/-- `re.search` for the marker pattern: try every start position from
the left; at a position where the opening literal matches, match the
lazy group and the closing literal, otherwise move one character
right.  Returns the captured group of the leftmost match. -/
def reSearch : List Char → Option (List Char)
  | [] => none
  | c :: rest =>
    if markerPre.isPrefixOf (c :: rest) then
      match lazyGroup ((c :: rest).drop markerPre.length) with
      | some g => some g
      | none => reSearch rest
    else reSearch rest

/-- Message of the chmod-failure exception. -/
def chmodFailMsg (stderr : String) : String :=
  "権限の変更に失敗しました: " ++ stderr

/-- Message of the exception raised on a nonzero subprocess exit,
carrying both captured streams. -/
def perlFailMsg (out err : String) : String :=
  "Perlスクリプトの実行に失敗しました。\n--- STDOUT ---\n" ++ out ++
    "\n--- STDERR ---\n" ++ err

/-- Message of the exception raised when the exit code was zero but the
marker is absent from stdout, carrying both captured streams. -/
def markerMissingMsg (out err : String) : String :=
  "コンパイルは成功しましたが、PDFファイル名の取得に失敗しました。\n--- STDOUT ---\n" ++ out ++
    "\n--- STDERR ---\n" ++ err

/-- Message of the exception raised when the marker-named file does not
exist in the scratch directory. -/
def pdfMissingMsg (path : String) : String :=
  "生成されたはずのPDFファイルが見つかりません: " ++ path

/-- Message of the `FileNotFoundError` for a missing source directory. -/
def notFoundMsg (dir : String) : String :=
  "指定されたソースディレクトリが見つかりません: " ++ dir

/-- The body of the `with` block of `compile_pdf_locally`: chmod the
scratch copy, run the driver, demand a zero exit code, scrape stdout for
the marker, and read the named file.  `chmodOk`/`chmodErr` model the
chmod subprocess, `run` the driver subprocess, and `scratchFiles` the
files present in the scratch directory when the driver has finished,
as an association list from name to byte contents. -/
def localBody (chmodOk : Bool) (chmodErr tempDir : String)
    (run : RunOutcome) (scratchFiles : List (String × List Nat)) :
    Except LocalErr (String × List Nat) × List LEvent :=
  if chmodOk = false then
    (Except.error (LocalErr.localCompilation (chmodFailMsg chmodErr)), [])
  else if run.exitCode ≠ 0 then
    (Except.error (LocalErr.localCompilation (perlFailMsg run.stdout run.stderr)),
     [LEvent.ranSubprocess])
  else
    match reSearch run.stdout.data with
    | none =>
      (Except.error
        (LocalErr.localCompilation (markerMissingMsg run.stdout run.stderr)),
       [LEvent.ranSubprocess])
    | some g =>
      match scratchFiles.lookup (String.mk g) with
      | none =>
        (Except.error
          (LocalErr.localCompilation
            (pdfMissingMsg (tempDir ++ "/" ++ String.mk g))),
         [LEvent.ranSubprocess])
      | some bytes => (Except.ok (String.mk g, bytes), [LEvent.ranSubprocess])

/-- `compile_pdf_locally`: check the source directory exists, then run
the body inside the `tempfile.TemporaryDirectory` context manager, whose
cleanup runs on every exit of the block, normal or raising.  `tempDir`
is the name the scratch directory was given. -/
def compile_pdf_locally (sourcesDir : String) (sourcesExist chmodOk : Bool)
    (chmodErr tempDir : String) (run : RunOutcome)
    (scratchFiles : List (String × List Nat)) :
    Except LocalErr (String × List Nat) × List LEvent :=
  if sourcesExist = false then
    (Except.error (LocalErr.fileNotFound (notFoundMsg sourcesDir)), [])
  else
    let body := localBody chmodOk chmodErr tempDir run scratchFiles
    (body.1, (LEvent.scratchCreated :: body.2) ++ [LEvent.scratchRemoved])

theorem pdfLoop_eq_error_iff (b64 : String → List Nat) (l : List OutputEntry) :
    pdfLoop b64 l = Except.error "No pdf output." ↔
      ∀ e ∈ l, ¬e.type_ = "pdf" := by
  induction l with
  | nil => simp [pdfLoop]
  | cons a rest ih =>
    by_cases h : a.type_ = "pdf"
    · simp [pdfLoop, h]
    · simp [pdfLoop, h, ih]

theorem htmlLoop_eq_error_iff (b64 : String → List Nat)
    (utf8 : List Nat → String) (l : List OutputEntry) :
    htmlLoop b64 utf8 l = Except.error "No pdf output." ↔
      ∀ e ∈ l, ¬e.type_ = "html" := by
  induction l with
  | nil => simp [htmlLoop]
  | cons a rest ih =>
    by_cases h : a.type_ = "html"
    · simp [htmlLoop, h]
    · simp [htmlLoop, h, ih]

theorem pdfLoop_first (b64 : String → List Nat) (pre : List OutputEntry)
    (e : OutputEntry) (post : List OutputEntry)
    (hpre : ∀ x ∈ pre, ¬x.type_ = "pdf") (he : e.type_ = "pdf") :
    pdfLoop b64 (pre ++ e :: post) =
      Except.ok (posixBasename e.path, b64 e.contents) := by
  induction pre with
  | nil => simp [pdfLoop, he]
  | cons a pre ih =>
    have ha : ¬a.type_ = "pdf" := hpre a (by simp)
    simpa [pdfLoop, ha] using ih fun x hx => hpre x (by simp [hx])

theorem htmlLoop_first (b64 : String → List Nat) (utf8 : List Nat → String)
    (pre : List OutputEntry) (e : OutputEntry) (post : List OutputEntry)
    (hpre : ∀ x ∈ pre, ¬x.type_ = "html") (he : e.type_ = "html") :
    htmlLoop b64 utf8 (pre ++ e :: post) =
      Except.ok (utf8 (b64 e.contents)) := by
  induction pre with
  | nil => simp [htmlLoop, he]
  | cons a pre ih =>
    have ha : ¬a.type_ = "html" := hpre a (by simp)
    simpa [htmlLoop, ha] using ih fun x hx => hpre x (by simp [hx])

theorem pdfLoop_ok (b64 : String → List Nat) (l : List OutputEntry)
    (name : String) (bytes : List Nat)
    (h : pdfLoop b64 l = Except.ok (name, bytes)) :
    ∃ e ∈ l, name = posixBasename e.path ∧ bytes = b64 e.contents ∧
      e.type_ = "pdf" := by
  induction l with
  | nil => simp [pdfLoop] at h
  | cons a rest ih =>
    by_cases ha : a.type_ = "pdf"
    · simp [pdfLoop, ha] at h
      exact ⟨a, by simp, h.1.symm, h.2.symm, ha⟩
    · simp [pdfLoop, ha] at h
      obtain ⟨e, he, h1, h2, h3⟩ := ih h
      exact ⟨e, by simp [he], h1, h2, h3⟩

/-- C1 counterexample: a response with `success=false`, `has_output=true`
and an empty output list makes `compile_pdf_return_bytes` raise the
compilation error `No pdf output.` — an error result — so it is not true
that every response with `success=false, has_output=true` yields a
non-error result across all three remote entry points. -/
theorem c1_counterexample :
    (ResponseData.mk false true [] "original log" []).success = false ∧
    (ResponseData.mk false true [] "original log" []).has_output = true ∧
    compile_pdf_return_bytes (fun _ => [])
        (ResponseData.mk false true [] "original log" []) =
      Except.error "No pdf output." :=
  ⟨rfl, rfl, rfl⟩

/-- C1 amended: for every decoded response, `success=false` together
with `has_output=false` makes all three remote entry points raise the
compilation error carrying the `log` field; for `compile_pdf` the
converse also holds (the log-carrying error is raised only then); and
when `success` or `has_output` is true, `compile_pdf` returns a
non-error result, while the first-pdf and first-html entry points
return a non-error result exactly when an entry of the requested type is
present, otherwise raising the distinct error `No pdf output.`. -/
theorem c1_decode_rule (b64 : String → List Nat) (utf8 : List Nat → String)
    (data : ResponseData) (dirExists : Bool) (existing : List String) :
    ((data.success = false ∧ data.has_output = false) →
        (compile_pdf b64 data dirExists existing).1 = Except.error data.log ∧
        compile_pdf_return_bytes b64 data = Except.error data.log ∧
        compile_html_return_text b64 utf8 data = Except.error data.log) ∧
    ((compile_pdf b64 data dirExists existing).1 = Except.error data.log →
        data.success = false ∧ data.has_output = false) ∧
    ((data.success = true ∨ data.has_output = true) →
        (∃ r, (compile_pdf b64 data dirExists existing).1 = Except.ok r) ∧
        (compile_pdf_return_bytes b64 data = Except.error "No pdf output." ↔
          ∀ e ∈ data.output, ¬e.type_ = "pdf") ∧
        (compile_html_return_text b64 utf8 data =
            Except.error "No pdf output." ↔
          ∀ e ∈ data.output, ¬e.type_ = "html")) := by
  refine ⟨?_, ?_, ?_⟩
  · rintro ⟨hs, ho⟩
    refine ⟨?_, ?_, ?_⟩ <;>
      simp [compile_pdf, compile_pdf_return_bytes, compile_html_return_text,
        hs, ho]
  · intro h
    cases hs : data.success with
    | false =>
      cases ho : data.has_output with
      | false => exact ⟨rfl, rfl⟩
      | true => simp [compile_pdf, hs, ho] at h
    | true => simp [compile_pdf, hs] at h
  · intro h
    have hcond : (data.success || data.has_output) = true := by
      rcases h with h | h <;> simp [h]
    refine ⟨⟨Result.mk data.success data.main_tex_files data.log
        (persistLoop b64 existing data.output).2, ?_⟩, ?_, ?_⟩
    · simp [compile_pdf, hcond]
    · simpa [compile_pdf_return_bytes, hcond] using
        pdfLoop_eq_error_iff b64 data.output
    · simpa [compile_html_return_text, hcond] using
        htmlLoop_eq_error_iff b64 utf8 data.output

/-- Witness for C1 amended: concrete instantiation on a failed response
without outputs and on a partial-success response without pdf entries. -/
theorem c1_decode_rule_witness :
    compile_pdf_return_bytes (fun _ => [])
        (ResponseData.mk false false [] "the log" []) =
      Except.error "the log" ∧
    compile_pdf_return_bytes (fun _ => [])
        (ResponseData.mk false true [] "the log"
          [OutputEntry.mk "ps" "a/b.ps" "Q"]) =
      Except.error "No pdf output." := by
  constructor
  · exact ((c1_decode_rule (fun _ => []) (fun _ => "")
      (ResponseData.mk false false [] "the log" []) true []).1
      ⟨rfl, rfl⟩).2.1
  · exact ((c1_decode_rule (fun _ => []) (fun _ => "")
      (ResponseData.mk false true [] "the log"
        [OutputEntry.mk "ps" "a/b.ps" "Q"]) true []).2.2
      (Or.inr rfl)).2.1.mpr (by decide)

/-- C3: for every non-failing response, `compile_pdf_return_bytes`
returns the first output entry in server-supplied order whose type is
pdf, as its POSIX basename paired with its base64-decoded bytes, and
`compile_html_return_text` returns the UTF-8 decoding of the
base64-decoded contents of the first entry whose type is html; each
raises the no-output compilation error when the response has zero
entries of the respective type. -/
theorem c3_first_match (b64 : String → List Nat) (utf8 : List Nat → String)
    (data : ResponseData)
    (h : data.success = true ∨ data.has_output = true) :
    (∀ pre e post, data.output = pre ++ e :: post →
        (∀ x ∈ pre, ¬x.type_ = "pdf") → e.type_ = "pdf" →
        compile_pdf_return_bytes b64 data =
          Except.ok (posixBasename e.path, b64 e.contents)) ∧
    ((∀ e ∈ data.output, ¬e.type_ = "pdf") →
        compile_pdf_return_bytes b64 data =
          Except.error "No pdf output.") ∧
    (∀ pre e post, data.output = pre ++ e :: post →
        (∀ x ∈ pre, ¬x.type_ = "html") → e.type_ = "html" →
        compile_html_return_text b64 utf8 data =
          Except.ok (utf8 (b64 e.contents))) ∧
    ((∀ e ∈ data.output, ¬e.type_ = "html") →
        compile_html_return_text b64 utf8 data =
          Except.error "No pdf output.") := by
  have hcond : (data.success || data.has_output) = true := by
    rcases h with h | h <;> simp [h]
  refine ⟨?_, ?_, ?_, ?_⟩
  · intro pre e post hsplit hpre he
    simp only [compile_pdf_return_bytes, hcond, Bool.not_true,
      Bool.false_eq_true, if_false, hsplit]
    exact pdfLoop_first b64 pre e post hpre he
  · intro hnone
    simp only [compile_pdf_return_bytes, hcond, Bool.not_true,
      Bool.false_eq_true, if_false]
    exact (pdfLoop_eq_error_iff b64 data.output).mpr hnone
  · intro pre e post hsplit hpre he
    simp only [compile_html_return_text, hcond, Bool.not_true,
      Bool.false_eq_true, if_false, hsplit]
    exact htmlLoop_first b64 utf8 pre e post hpre he
  · intro hnone
    simp only [compile_html_return_text, hcond, Bool.not_true,
      Bool.false_eq_true, if_false]
    exact (htmlLoop_eq_error_iff b64 utf8 data.output).mpr hnone

/-- Witness for C3: a response whose second entry is the first pdf entry
yields that entry's basename and decoded bytes. -/
theorem c3_first_match_witness :
    compile_pdf_return_bytes (fun s => [s.length])
        (ResponseData.mk true true [] "L"
          [OutputEntry.mk "ps" "o/a.ps" "PPP",
           OutputEntry.mk "pdf" "o/b.pdf" "QQ"]) =
      Except.ok ("b.pdf", [2]) := by
  have := (c3_first_match (fun s => [s.length]) (fun _ => "")
      (ResponseData.mk true true [] "L"
        [OutputEntry.mk "ps" "o/a.ps" "PPP",
         OutputEntry.mk "pdf" "o/b.pdf" "QQ"]) (Or.inl rfl)).1
      [OutputEntry.mk "ps" "o/a.ps" "PPP"]
      (OutputEntry.mk "pdf" "o/b.pdf" "QQ") [] rfl (by decide) rfl
  simpa using this

/-- C10: for every non-failing response with no html entry,
`compile_html_return_text` raises a compilation error whose message is
exactly the string `No pdf output.` — the html mode's no-output error
really names pdf. -/
theorem c10_html_error_says_pdf (b64 : String → List Nat)
    (utf8 : List Nat → String) (data : ResponseData)
    (h : data.success = true ∨ data.has_output = true)
    (hnone : ∀ e ∈ data.output, ¬e.type_ = "html") :
    compile_html_return_text b64 utf8 data =
      Except.error "No pdf output." := by
  have hcond : (data.success || data.has_output) = true := by
    rcases h with h | h <;> simp [h]
  simp only [compile_html_return_text, hcond, Bool.not_true,
    Bool.false_eq_true, if_false]
  exact (htmlLoop_eq_error_iff b64 utf8 data.output).mpr hnone

/-- Witness for C10: a successful response holding only a pdf entry. -/
theorem c10_html_error_says_pdf_witness :
    compile_html_return_text (fun _ => []) (fun _ => "")
        (ResponseData.mk true false [] "L"
          [OutputEntry.mk "pdf" "a.pdf" "Q"]) =
      Except.error "No pdf output." :=
  c10_html_error_says_pdf (fun _ => []) (fun _ => "")
    (ResponseData.mk true false [] "L" [OutputEntry.mk "pdf" "a.pdf" "Q"])
    (Or.inl rfl) (by decide)

/-- The number of colliding entries: an entry collides when its basename
is already a file of the output directory or the basename of an earlier
entry of the same response. -/
def collisionCount (existing : List String) : List OutputEntry → Nat
  | [] => 0
  | e :: rest =>
    (if posixBasename e.path ∈ existing then 1 else 0) +
      collisionCount (posixBasename e.path :: existing) rest

theorem persistLoop_writes (b64 : String → List Nat)
    (l : List OutputEntry) :
    ∀ existing : List String,
      (persistLoop b64 existing l).1.filter isWrite =
        l.map fun e => Event.write (posixBasename e.path) (b64 e.contents) := by
  induction l with
  | nil => intro existing; simp [persistLoop]
  | cons e rest ih =>
    intro existing
    by_cases hmem : posixBasename e.path ∈ existing <;>
      simp [persistLoop, hmem, isWrite, ih]

theorem persistLoop_outputs (b64 : String → List Nat)
    (l : List OutputEntry) :
    ∀ existing : List String,
      (persistLoop b64 existing l).2 =
        l.map fun e => OutputFile.mk e.type_ (posixBasename e.path) := by
  induction l with
  | nil => intro existing; simp [persistLoop]
  | cons e rest ih => intro existing; simp [persistLoop, ih]

theorem persistLoop_warns (b64 : String → List Nat)
    (l : List OutputEntry) :
    ∀ existing : List String,
      (persistLoop b64 existing l).1.countP isWarn =
        collisionCount existing l := by
  induction l with
  | nil => intro existing; simp [persistLoop, collisionCount]
  | cons e rest ih =>
    intro existing
    by_cases hmem : posixBasename e.path ∈ existing <;>
      simp [persistLoop, collisionCount, hmem, isWarn, ih,
        List.countP_cons, List.countP_append, Nat.add_comm]

theorem persistLoop_no_mkdir (b64 : String → List Nat)
    (l : List OutputEntry) :
    ∀ existing : List String,
      Event.mkdir ∉ (persistLoop b64 existing l).1 := by
  induction l with
  | nil => intro existing; simp [persistLoop]
  | cons e rest ih =>
    intro existing
    by_cases hmem : posixBasename e.path ∈ existing <;>
      simp [persistLoop, hmem, ih]

/-- C2: for every non-failing response, `compile_pdf` returns a
non-error result and writes exactly one file per entry of the response's
output list, in order, into the destination directory — emitting a
mkdir exactly when the directory was absent — so the count of writes
equals the count of output entries even when basenames collide; each
collision emits one warning event and the colliding entry is still
written and still listed in the result. -/
theorem c2_persist_all (b64 : String → List Nat) (data : ResponseData)
    (dirExists : Bool) (existing : List String)
    (h : data.success = true ∨ data.has_output = true) :
    ∃ r evs, compile_pdf b64 data dirExists existing = (Except.ok r, evs) ∧
      evs.filter isWrite =
        (data.output.map fun e =>
          Event.write (posixBasename e.path) (b64 e.contents)) ∧
      (evs.filter isWrite).length = data.output.length ∧
      evs.countP isWarn = collisionCount existing data.output ∧
      (Event.mkdir ∈ evs ↔ dirExists = false) ∧
      r.output_files =
        (data.output.map fun e =>
          OutputFile.mk e.type_ (posixBasename e.path)) := by
  have hcond : (data.success || data.has_output) = true := by
    rcases h with h | h <;> simp [h]
  refine ⟨Result.mk data.success data.main_tex_files data.log
      (persistLoop b64 existing data.output).2,
    (if dirExists then [] else [Event.mkdir]) ++
      (persistLoop b64 existing data.output).1, ?_, ?_, ?_, ?_, ?_, ?_⟩
  · simp [compile_pdf, hcond]
  · cases dirExists <;>
      simp [persistLoop_writes, isWrite, List.filter_append]
  · cases dirExists <;>
      simp [persistLoop_writes, isWrite, List.filter_append]
  · cases dirExists <;>
      simp [persistLoop_warns, isWarn, List.countP_append]
  · cases dirExists <;>
      simp [persistLoop_no_mkdir]
  · simp [persistLoop_outputs]

/-- Witness for C2: a successful response with two entries whose
basenames collide still produces two writes and one warning. -/
theorem c2_persist_all_witness :
    ∃ r evs,
      compile_pdf (fun s => [s.length])
          (ResponseData.mk true true [] "L"
            [OutputEntry.mk "pdf" "out/x.pdf" "AA",
             OutputEntry.mk "ps" "other/x.pdf" "BBB"]) false [] =
        (Except.ok r, evs) ∧
      evs.filter isWrite =
        ([OutputEntry.mk "pdf" "out/x.pdf" "AA",
          OutputEntry.mk "ps" "other/x.pdf" "BBB"].map fun e =>
          Event.write (posixBasename e.path) [e.contents.length]) ∧
      (evs.filter isWrite).length = 2 ∧
      evs.countP isWarn =
        collisionCount []
          [OutputEntry.mk "pdf" "out/x.pdf" "AA",
           OutputEntry.mk "ps" "other/x.pdf" "BBB"] ∧
      (Event.mkdir ∈ evs ↔ false = false) ∧
      r.output_files =
        ([OutputEntry.mk "pdf" "out/x.pdf" "AA",
          OutputEntry.mk "ps" "other/x.pdf" "BBB"].map fun e =>
          OutputFile.mk e.type_ (posixBasename e.path)) :=
  c2_persist_all (fun s => [s.length])
    (ResponseData.mk true true [] "L"
      [OutputEntry.mk "pdf" "out/x.pdf" "AA",
       OutputEntry.mk "ps" "other/x.pdf" "BBB"]) false [] (Or.inl rfl)

theorem lastSegment_spec (l : List Char) :
    '/' ∉ lastSegment l ∧
      (l = lastSegment l ∨ ∃ pre, l = pre ++ '/' :: lastSegment l) := by
  induction l using List.reverseRecOn with
  | nil => simp [lastSegment]
  | append_singleton l a ih =>
    by_cases ha : a = '/'
    · subst ha
      refine ⟨by simp [lastSegment], Or.inr ⟨l, by simp [lastSegment]⟩⟩
    · have hseg : lastSegment (l ++ [a]) = lastSegment l ++ [a] := by
        simp [lastSegment, ha]
      constructor
      · rw [hseg]
        intro hmem
        rcases List.mem_append.mp hmem with h | h
        · exact ih.1 h
        · exact ha (List.mem_singleton.mp h).symm
      · rcases ih.2 with h | ⟨pre, hpre⟩
        · left; rw [hseg, ← h]
        · right
          refine ⟨pre, ?_⟩
          rw [hseg]
          conv_lhs => rw [hpre]
          simp

/-- C7: the base name of every artifact produced by the remote entry
points is `posixBasename` of the server-supplied path, and
`posixBasename` returns exactly the final forward-slash-separated
segment of the path: it contains no forward slash, and the path is
either the segment itself or some prefix followed by a forward slash
and the segment.  The definition splits on the forward-slash character
only, so it does not depend on any host path convention. -/
theorem c7_posix_basename (p : String) (b64 : String → List Nat)
    (data : ResponseData) (dirExists : Bool) (existing : List String) :
    ('/' ∉ (posixBasename p).data ∧
      (p.data = (posixBasename p).data ∨
        ∃ pre, p.data = pre ++ '/' :: (posixBasename p).data)) ∧
    (∀ r evs, compile_pdf b64 data dirExists existing = (Except.ok r, evs) →
        ∀ f ∈ r.output_files, ∃ e ∈ data.output,
          f.name = posixBasename e.path) ∧
    (∀ name bytes,
        compile_pdf_return_bytes b64 data = Except.ok (name, bytes) →
        ∃ e ∈ data.output, name = posixBasename e.path) := by
  refine ⟨?_, ?_, ?_⟩
  · exact lastSegment_spec p.data
  · intro r evs hok f hf
    have hout : r.output_files =
        data.output.map fun e =>
          OutputFile.mk e.type_ (posixBasename e.path) := by
      cases hcond : (data.success || data.has_output) with
      | true =>
        have hr : r = Result.mk data.success data.main_tex_files data.log
            (persistLoop b64 existing data.output).2 := by
          simp [compile_pdf, hcond] at hok
          exact hok.1.symm
        rw [hr]
        simp [persistLoop_outputs]
      | false => simp [compile_pdf, hcond] at hok
    rw [hout] at hf
    obtain ⟨e, he, hfe⟩ := List.mem_map.mp hf
    exact ⟨e, he, by rw [← hfe]⟩
  · intro name bytes hok
    cases hcond : (data.success || data.has_output) with
    | true =>
      simp only [compile_pdf_return_bytes, hcond, Bool.not_true,
        Bool.false_eq_true, if_false] at hok
      obtain ⟨e, he, h1, _, _⟩ := pdfLoop_ok b64 data.output name bytes hok
      exact ⟨e, he, h1⟩
    | false => simp [compile_pdf_return_bytes, hcond] at hok

/-- Witness for C7: concrete instantiation on a path with directories. -/
theorem c7_posix_basename_witness :
    '/' ∉ (posixBasename "out/sub/x.pdf").data ∧
    ∃ e ∈ (ResponseData.mk true false [] "L"
        [OutputEntry.mk "pdf" "out/sub/x.pdf" "AA"]).output,
      "x.pdf" = posixBasename e.path := by
  constructor
  · exact (c7_posix_basename "out/sub/x.pdf" (fun _ => [])
      (ResponseData.mk true false [] "L" []) true []).1.1
  · exact (c7_posix_basename "out/sub/x.pdf" (fun _ => [])
      (ResponseData.mk true false [] "L"
        [OutputEntry.mk "pdf" "out/sub/x.pdf" "AA"]) true []).2.2
      "x.pdf" [] rfl

theorem retryLoop_answered (server : Nat → Option Nat) :
    ∀ fuel k n st, retryLoop server k fuel = LoopOut.answered n st →
      st ≠ 104 ∧ server n = some st ∧ k ≤ n ∧
        ∀ m, k ≤ m → m < n → server m = some 104 := by
  intro fuel
  induction fuel with
  | zero => intro k n st h; simp [retryLoop] at h
  | succ fuel ih =>
    intro k n st h
    simp only [retryLoop] at h
    split at h
    · simp at h
    · rename_i st0 hs
      split at h
      · rename_i h104
        have hst0 : st0 = 104 := by simpa using h104
        obtain ⟨h1, h2, h3, h4⟩ := ih (k + 1) n st h
        refine ⟨h1, h2, by omega, ?_⟩
        intro m hm1 hm2
        rcases Nat.eq_or_lt_of_le hm1 with rfl | hlt
        · rw [hs, hst0]
        · exact h4 m hlt hm2
      · rename_i h104
        cases h
        refine ⟨?_, hs, Nat.le_refl k, ?_⟩
        · intro hEq
          rw [hEq] at h104
          simp at h104
        · intro m hm1 hm2
          omega

theorem retryLoop_reaches (server : Nat → Option Nat) :
    ∀ n fuel k, (∀ m, m < n → server (k + m) = some 104) → n < fuel →
      (server (k + n) = none →
        retryLoop server k fuel = LoopOut.connFailed (k + n)) ∧
      (∀ st, server (k + n) = some st → st ≠ 104 →
        retryLoop server k fuel = LoopOut.answered (k + n) st) := by
  intro n
  induction n with
  | zero =>
    intro fuel k hall hfuel
    obtain ⟨fuel, rfl⟩ : ∃ f, fuel = f + 1 := ⟨fuel - 1, by omega⟩
    constructor
    · intro hnone
      rw [Nat.add_zero] at hnone
      simp [retryLoop, hnone]
    · intro st hst h104
      rw [Nat.add_zero] at hst
      simp [retryLoop, hst, h104]
  | succ n ih =>
    intro fuel k hall hfuel
    obtain ⟨fuel, rfl⟩ : ∃ f, fuel = f + 1 := ⟨fuel - 1, by omega⟩
    have h0 : server k = some 104 := by simpa using hall 0 (by omega)
    have hstep : retryLoop server k (fuel + 1) =
        retryLoop server (k + 1) fuel := by
      simp [retryLoop, h0]
    have hall2 : ∀ m, m < n → server (k + 1 + m) = some 104 := by
      intro m hm
      have hx := hall (m + 1) (by omega)
      have harm : k + (m + 1) = k + 1 + m := by omega
      rw [harm] at hx
      exact hx
    have harith : k + 1 + n = k + (n + 1) := by omega
    constructor
    · intro hnone
      rw [hstep]
      have hrec := (ih fuel (k + 1) hall2 (by omega)).1
      rw [harith] at hrec
      exact hrec hnone
    · intro st hst h104
      rw [hstep]
      have hrec := (ih fuel (k + 1) hall2 (by omega)).2 st
      rw [harith] at hrec
      exact hrec hst h104

/-- C4: for every call whose caller contract holds, whenever the server
answers an attempt with status 104 the same request (same mode and
main-tex form fields) is posted again, and the loop only ever hands back
a response whose status differs from 104: a returned response at attempt
`n` has a non-104 status, every attempt before `n` received status 104,
and exactly `n + 1` identical POSTs appear in the trace; conversely the
first attempt answered with a non-104 status (or with enough observation
fuel, any such attempt) is the one returned. -/
theorem c4_retry_until_non_104 (mode mainTex : String)
    (server : Nat → Option Nat) (fuel : Nat)
    (hm : ¬(mode = "latexml" ∧ mainTex = "")) :
    (∀ n st tr,
        sendRequest mode mainTex server fuel = (Except.ok (n, st), tr) →
        st ≠ 104 ∧ server n = some st ∧
          (∀ m, m < n → server m = some 104) ∧
          tr = SEvent.tmpCreated :: SEvent.archiveWritten ::
            (List.replicate (n + 1) (SEvent.post mode mainTex) ++
              [SEvent.tmpRemoved])) ∧
    (∀ n st, (∀ m, m < n → server m = some 104) → server n = some st →
        st ≠ 104 → n < fuel →
        sendRequest mode mainTex server fuel =
          (Except.ok (n, st), SEvent.tmpCreated :: SEvent.archiveWritten ::
            (List.replicate (n + 1) (SEvent.post mode mainTex) ++
              [SEvent.tmpRemoved]))) := by
  have hcond : (mode == "latexml" && mainTex == "") = false := by
    cases hmode : (mode == "latexml") with
    | false => simp
    | true =>
      cases hmt : (mainTex == "") with
      | false => simp
      | true => exact absurd ⟨beq_iff_eq.mp hmode, beq_iff_eq.mp hmt⟩ hm
  constructor
  · intro n st tr h
    simp only [sendRequest, hcond, Bool.false_eq_true, if_false] at h
    cases hloop : retryLoop server 0 fuel with
    | answered n0 st0 =>
      rw [hloop] at h
      simp only [Prod.mk.injEq, Except.ok.injEq] at h
      obtain ⟨⟨hn, hst⟩, htr⟩ := h
      subst hn; subst hst
      obtain ⟨h1, h2, _, h4⟩ :=
        retryLoop_answered server fuel 0 n0 st0 hloop
      exact ⟨h1, h2, fun m hm2 => h4 m (Nat.zero_le m) hm2, htr.symm⟩
    | connFailed n0 => rw [hloop] at h; simp at h
    | running => rw [hloop] at h; simp at h
  · intro n st hall hn h104 hfuel
    have hloop := (retryLoop_reaches server n fuel 0
        (fun m hm2 => by rw [Nat.zero_add]; exact hall m hm2)
        hfuel).2 st (by rw [Nat.zero_add]; exact hn) h104
    rw [Nat.zero_add] at hloop
    simp [sendRequest, hcond, hloop]

/-- Witness for C4: a server busy for two attempts and answering 200 on
the third makes the call return the third response after three identical
POSTs. -/
theorem c4_retry_until_non_104_witness :
    sendRequest "autotex" " "
        (fun k => if k < 2 then some 104 else some 200) 5 =
      (Except.ok (2, 200), SEvent.tmpCreated :: SEvent.archiveWritten ::
        (List.replicate 3 (SEvent.post "autotex" " ") ++
          [SEvent.tmpRemoved])) := by
  have h := (c4_retry_until_non_104 "autotex" " "
      (fun k => if k < 2 then some 104 else some 200) 5
      (fun hc => by simp at hc)).2 2 200
      (by
        intro m hm
        match m, hm with
        | 0, _ => rfl
        | 1, _ => rfl)
      rfl (by omega) (by omega)
  exact h

/-- C5 counterexample: a latexml call with an empty main-document name
raises the assertion error, but only after the source archive has been
packaged — the event trace contains the archive-creation I/O event — so
the caller-contract violation is not detected before any I/O. -/
theorem c5_counterexample :
    (sendRequest "latexml" "" (fun _ => some 200) 3).1 =
      Except.error SErr.assertionError ∧
    SEvent.archiveWritten ∈ (sendRequest "latexml" "" (fun _ => some 200) 3).2 := by
  constructor
  · rfl
  · show SEvent.archiveWritten ∈
      [SEvent.tmpCreated, SEvent.archiveWritten, SEvent.tmpRemoved]
    simp

/-- C5 amended: a latexml-mode call with an empty main-document name
raises the assertion error after the temporary directory is created and
the source archive is written into it, but before any POST: the request
is never sent to the server (the trace contains no post event). -/
theorem c5_assert_before_send (mainTex : String)
    (server : Nat → Option Nat) (fuel : Nat) (h : mainTex = "") :
    sendRequest "latexml" mainTex server fuel =
      (Except.error SErr.assertionError,
        [SEvent.tmpCreated, SEvent.archiveWritten, SEvent.tmpRemoved]) ∧
    ((sendRequest "latexml" mainTex server fuel).2.all
        fun e => !isPost e) = true := by
  subst h
  exact ⟨rfl, rfl⟩

/-- Witness for C5 amended: concrete server and fuel. -/
theorem c5_assert_before_send_witness :
    sendRequest "latexml" "" (fun _ => some 200) 7 =
      (Except.error SErr.assertionError,
        [SEvent.tmpCreated, SEvent.archiveWritten, SEvent.tmpRemoved]) :=
  (c5_assert_before_send "" (fun _ => some 200) 7 rfl).1

theorem getLast?_cons_concat {α : Type} (x : α) (l : List α)
    (r : α) : (x :: (l ++ [r])).getLast? = some r := by
  rw [show x :: (l ++ [r]) = (x :: l) ++ [r] by simp,
    List.getLast?_concat]

/-- C9: the scratch resources are scoped: in `compile_pdf_locally`, when
the source directory exists the trace opens with the scratch-directory
creation and — whatever the outcome — closes with its removal; when the
source directory is missing no scratch directory is ever created; and in
`send_request`, on every completed call (every call that is not still
inside the unbounded retry loop) the trace opens with the temporary
directory creation and closes with its removal. -/
theorem c9_scratch_cleanup :
    (∀ (sourcesDir chmodErr tempDir : String) (chmodOk : Bool)
        (run : RunOutcome) (scratchFiles : List (String × List Nat)),
        (compile_pdf_locally sourcesDir true chmodOk chmodErr tempDir run
              scratchFiles).2.head? = some LEvent.scratchCreated ∧
        (compile_pdf_locally sourcesDir true chmodOk chmodErr tempDir run
              scratchFiles).2.getLast? = some LEvent.scratchRemoved) ∧
    (∀ (sourcesDir chmodErr tempDir : String) (chmodOk : Bool)
        (run : RunOutcome) (scratchFiles : List (String × List Nat)),
        (compile_pdf_locally sourcesDir false chmodOk chmodErr tempDir run
            scratchFiles).2 = []) ∧
    (∀ (mode mainTex : String) (server : Nat → Option Nat) (fuel : Nat),
        (sendRequest mode mainTex server fuel).1 ≠
            Except.error SErr.stillLooping →
          (sendRequest mode mainTex server fuel).2.head? =
              some SEvent.tmpCreated ∧
          (sendRequest mode mainTex server fuel).2.getLast? =
              some SEvent.tmpRemoved) := by
  refine ⟨?_, ?_, ?_⟩
  · intro sourcesDir chmodErr tempDir chmodOk run scratchFiles
    constructor
    · simp [compile_pdf_locally]
    · simp [compile_pdf_locally, getLast?_cons_concat]
  · intro sourcesDir chmodErr tempDir chmodOk run scratchFiles
    simp [compile_pdf_locally]
  · intro mode mainTex server fuel hne
    by_cases hc : (mode == "latexml" && mainTex == "") = true
    · constructor <;> simp [sendRequest, hc]
    · rw [Bool.not_eq_true] at hc
      cases hloop : retryLoop server 0 fuel with
      | answered n st =>
        constructor <;>
          simp [sendRequest, hc, hloop, getLast?_cons_concat]
      | connFailed n =>
        constructor <;>
          simp [sendRequest, hc, hloop, getLast?_cons_concat]
      | running =>
        exfalso
        exact hne (by simp [sendRequest, hc, hloop])

/-- Witness for C9: concrete failing local run and concrete completed
remote call both end with the removal event. -/
theorem c9_scratch_cleanup_witness :
    (compile_pdf_locally "s" true true "" "/t" (RunOutcome.mk 1 "o" "e")
        []).2.getLast? = some LEvent.scratchRemoved ∧
    (sendRequest "autotex" " " (fun _ => some 200) 1).2.getLast? =
      some SEvent.tmpRemoved := by
  constructor
  · exact (c9_scratch_cleanup.1 "s" "" "/t" true (RunOutcome.mk 1 "o" "e")
      []).2
  · exact (c9_scratch_cleanup.2.2 "autotex" " " (fun _ => some 200) 1
      (fun hcontra => by simp [sendRequest, retryLoop] at hcontra)).2

/-- C6 amended: for every run of the local runner in which the driver
subprocess exits 0 (so the source directory existed and the chmod
succeeded): if the marker pattern matches the captured stdout and the
captured file name exists in the scratch directory, the run returns that
captured name — exactly as printed by the driver, which equals the file
basename whenever it contains no slash — paired with the file's full
byte contents; if the pattern does not match, it raises the fatal
could-not-determine-output-filename error even though the exit code was
zero; and if the pattern matches but the named file does not exist, it
raises the separate missing-file error. -/
theorem c6_marker_contract (sourcesDir chmodErr tempDir : String)
    (run : RunOutcome) (scratchFiles : List (String × List Nat))
    (hexit : run.exitCode = 0) :
    (∀ g bytes, reSearch run.stdout.data = some g →
        scratchFiles.lookup (String.mk g) = some bytes →
        (compile_pdf_locally sourcesDir true true chmodErr tempDir run
            scratchFiles).1 = Except.ok (String.mk g, bytes)) ∧
    (reSearch run.stdout.data = none →
        (compile_pdf_locally sourcesDir true true chmodErr tempDir run
            scratchFiles).1 =
          Except.error (LocalErr.localCompilation
            (markerMissingMsg run.stdout run.stderr))) ∧
    (∀ g, reSearch run.stdout.data = some g →
        scratchFiles.lookup (String.mk g) = none →
        (compile_pdf_locally sourcesDir true true chmodErr tempDir run
            scratchFiles).1 =
          Except.error (LocalErr.localCompilation
            (pdfMissingMsg (tempDir ++ "/" ++ String.mk g)))) := by
  refine ⟨?_, ?_, ?_⟩
  · intro g bytes hre hlook
    simp [compile_pdf_locally, localBody, hexit, hre, hlook]
  · intro hre
    simp [compile_pdf_locally, localBody, hexit, hre]
  · intro g hre hlook
    simp [compile_pdf_locally, localBody, hexit, hre, hlook]

/-- Witness for C6 amended: driver stdout naming `out.pdf`, file present
with concrete bytes. -/
theorem c6_marker_contract_witness :
    (compile_pdf_locally "src" true true "" "/scratch"
        (RunOutcome.mk 0 "Generated PDF: out.pdf<end of PDF name>" "")
        [("out.pdf", [1, 2])]).1 = Except.ok ("out.pdf", [1, 2]) :=
  (c6_marker_contract "src" "" "/scratch"
      (RunOutcome.mk 0 "Generated PDF: out.pdf<end of PDF name>" "")
      [("out.pdf", [1, 2])] rfl).1 "out.pdf".data [1, 2] rfl rfl

/-- C6 counterexample: when the marker names `sub/x.pdf` and that file
exists in the scratch directory, the run returns the captured name
`sub/x.pdf` verbatim, which is not the file's basename `x.pdf` — so
the claim that the run returns the file's basename fails. -/
theorem c6_counterexample :
    (compile_pdf_locally "src" true true "" "/scratch"
        (RunOutcome.mk 0 "Generated PDF: sub/x.pdf<end of PDF name>" "")
        [("sub/x.pdf", [37, 80])]).1 = Except.ok ("sub/x.pdf", [37, 80]) ∧
    posixBasename "sub/x.pdf" = "x.pdf" ∧
    ¬("sub/x.pdf" : String) = "x.pdf" :=
  ⟨rfl, rfl, by decide⟩

/-- C8: for every run of the local runner in which the driver subprocess
exits with a nonzero code, the raised local-compilation error's message
contains both the captured standard output and the captured standard
error of the subprocess. -/
theorem c8_nonzero_exit_carries_streams (sourcesDir chmodErr tempDir : String)
    (run : RunOutcome) (scratchFiles : List (String × List Nat))
    (h : run.exitCode ≠ 0) :
    (compile_pdf_locally sourcesDir true true chmodErr tempDir run
        scratchFiles).1 =
      Except.error (LocalErr.localCompilation
        (perlFailMsg run.stdout run.stderr)) ∧
    ∃ a b, (perlFailMsg run.stdout run.stderr).data =
      a ++ (run.stdout.data ++ (b ++ run.stderr.data)) := by
  constructor
  · simp [compile_pdf_locally, localBody, h]
  · refine ⟨("Perlスクリプトの実行に失敗しました。\n--- STDOUT ---\n" : String).data,
      ("\n--- STDERR ---\n" : String).data, ?_⟩
    simp [perlFailMsg, String.data_append]

/-- Witness for C8: concrete nonzero exit. -/
theorem c8_nonzero_exit_carries_streams_witness :
    (compile_pdf_locally "s" true true "" "/t"
        (RunOutcome.mk 2 "out text" "err text") []).1 =
      Except.error (LocalErr.localCompilation
        (perlFailMsg "out text" "err text")) ∧
    ∃ a b, (perlFailMsg "out text" "err text").data =
      a ++ (("out text" : String).data ++ (b ++ ("err text" : String).data)) :=
  c8_nonzero_exit_carries_streams "s" "" "/t"
    (RunOutcome.mk 2 "out text" "err text") [] (by decide)

end Texcompile
